import Mathlib

/-!
# Verification of the cchat auth-service core

Shallow embedding of the authentication/session subsystem of the cchat
repository (`server/auth-service`), translated from the Go sources:

* `internal/lib/jwt` — `NewPairTokens`, `VerifyAccessToken`,
  `VerifyRefreshToken`, `extractUserFromClaims`;
* `internal/services/auth` — `Login`, `RegisterNewUser`, `ChangePassword`,
  `ResetPassword`;
* `internal/provider/storage/postgres/credential.go` — the credential store;
* `user-service/internal/services/user` and
  `user-service/internal/provider/storage/postgres/user.go` — the identity
  provider consumed by the auth service.

Library collaborators (golang-jwt/v5, bcrypt, google/uuid, gofakeit) are
modelled by executable Lean functions honouring the contracts the Go code
relies on; each model carries a comment stating exactly what is modelled.
Machine time is passed explicitly as an integer of Unix seconds, and the
sources of randomness (bcrypt salts, generated usernames, fresh UUIDs,
generated reset secrets) are passed as explicit parameters.
-/

deriving instance DecidableEq for Except

namespace CChat

/-! ## Identities and UUIDs -/

/-- Model of `google/uuid.UUID`. The Go type is a 16-byte array; the claims
code only ever sees it through its canonical textual form
`xxxxxxxx-xxxx-xxxx-xxxx-xxxxxxxxxxxx` (its JSON marshalling), so we carry
that string. -/
structure UUID where
  repr : String
deriving DecidableEq, Repr

def isHexDigit (c : Char) : Bool :=
  (('0' ≤ c) && (c ≤ '9')) || (('a' ≤ c) && (c ≤ 'f')) || (('A' ≤ c) && (c ≤ 'F'))

/-- Canonical hyphenated UUID format: 36 characters, hyphens at positions
8, 13, 18 and 23, hex digits elsewhere. -/
def isCanonicalUUID (s : String) : Bool :=
  let cs := s.toList
  (cs.length == 36) &&
  (List.range 36).all fun i =>
    let c := cs.getD i ' '
    if i == 8 || i == 13 || i == 18 || i == 23 then c == '-' else isHexDigit c

def charLower (c : Char) : Char :=
  if ('A' ≤ c) && (c ≤ 'Z') then Char.ofNat (c.toNat + 32) else c

/-- ASCII lowercasing of the canonical form (executable counterpart of the
case normalisation `uuid.Parse` performs by decoding to bytes). -/
def strLower (s : String) : String := String.mk (s.toList.map charLower)

/-- Model of `uuid.Parse`. The Go function also accepts braced, URN and
32-digit encodings; the tokens minted by this repository only ever carry the
canonical hyphenated form, which is what we model. Parsing normalises to
lower case, as `uuid.Parse` does by decoding to bytes. -/
def uuidParse (s : String) : Option UUID :=
  if isCanonicalUUID s then some ⟨strLower s⟩ else none

/-- `models.NormalizedUser` (auth-service `domain/models/user.go`). -/
structure NormalizedUser where
  uuid : UUID
  username : String
  email : String
deriving DecidableEq, Repr

/-! ## JWT claims and tokens -/

/-- A decoded JSON claim value, as seen by the `claims["k"].(string)` type
assertions in `extractUserFromClaims`: either a JSON string or some value of
another JSON type (on which the assertion fails). -/
inductive JsonVal where
  | str (s : String)
  | other
deriving DecidableEq, Repr

/-- Model of `jwt.MapClaims` restricted to the four keys this repository
reads or writes: `uuid`, `username`, `email` (arbitrary JSON values) and
`exp` (Unix seconds, set as an integer by `NewPairTokens` and read by the
golang-jwt expiry validator). `none` models an absent key. -/
structure MapClaims where
  uuid : Option JsonVal
  username : Option JsonVal
  email : Option JsonVal
  exp : Option Int
deriving DecidableEq, Repr

def MapClaims.empty : MapClaims := ⟨none, none, none, none⟩

/-- Signing method recorded in a token's header: `HS256` (the only method
this repository uses) or any non-HMAC method. -/
inductive SigMethod where
  | hs256
  | other
deriving DecidableEq, Repr

/-- Model of an encoded JWT string. `malformed` is a string that does not
decode as a JWT at all (claims cannot be recovered); `signed` is a decodable
token carrying its claim set, its header's signing method and the secret its
signature was produced with (HMAC signature verification against key `k`
succeeds exactly when the token was signed with `k`). -/
inductive Token where
  | malformed (raw : String)
  | signed (claims : MapClaims) (method : SigMethod) (secret : String)
deriving DecidableEq, Repr

/-- The hardcoded access-token secret `[]byte("somesecret")` in
`internal/lib/jwt`. -/
def accessSecret : String := "somesecret"

/-- The hardcoded refresh-token secret `[]byte("secret")` in
`internal/lib/jwt`. -/
def refreshSecret : String := "secret"

/-- `accessDuration = 15 * time.Minute`, in seconds. -/
def accessDuration : Int := 15 * 60

/-- `refreshDuration = 43200 * time.Minute`, in seconds. -/
def refreshDuration : Int := 43200 * 60

/-- Error kinds produced by golang-jwt `Parse` / `ParseWithClaims`:
token not decodable, keyfunc failure or non-HMAC method, HMAC signature
mismatch, or `exp` in the past. -/
inductive JwtError where
  | malformed
  | badMethod
  | signatureInvalid
  | expired
deriving DecidableEq, Repr

/-- Outcome of `jwt.ParseWithClaims` on the access token: the state of the
caller-supplied claims map after parsing, the token's `Valid` flag and the
returned error. golang-jwt v5 decodes the claims into the map before the
keyfunc and signature/expiry checks run, so claims are populated whenever
the token decodes, even if verification then fails; `Valid` is set only
when no check failed. -/
structure AccessParse where
  claims : MapClaims
  valid : Bool
  err : Option JwtError
deriving DecidableEq, Repr

/-- Model of the `jwt.ParseWithClaims(accessToken, claims, keyfunc)` call in
`VerifyAccessToken`: the keyfunc rejects non-HMAC methods and yields
`[]byte("somesecret")`; then the signature and the `exp` claim are checked
(v5 order: decode, keyfunc, signature, claims validation; a missing `exp`
is not an error by default). -/
def parseAccessToken (tok : Token) (now : Int) : AccessParse :=
  match tok with
  | .malformed _ => ⟨MapClaims.empty, false, some .malformed⟩
  | .signed cs m secret =>
    if m != SigMethod.hs256 then ⟨cs, false, some .badMethod⟩
    else if secret != accessSecret then ⟨cs, false, some .signatureInvalid⟩
    else match cs.exp with
      | some e => if e < now then ⟨cs, false, some .expired⟩ else ⟨cs, true, none⟩
      | none => ⟨cs, true, none⟩

/-- Outcome of `jwt.Parse` on the refresh token: `Valid` flag and error. -/
structure RefreshParse where
  valid : Bool
  err : Option JwtError
deriving DecidableEq, Repr

/-- Model of the `jwt.Parse(refreshToken, keyfunc)` call in
`VerifyRefreshToken`: the keyfunc unconditionally yields `[]byte("secret")`,
but a non-HMAC method still fails verification because a byte-slice key is
invalid for every non-HMAC algorithm. -/
def parseRefreshToken (tok : Token) (now : Int) : RefreshParse :=
  match tok with
  | .malformed _ => ⟨false, some .malformed⟩
  | .signed cs m secret =>
    if m != SigMethod.hs256 then ⟨false, some .badMethod⟩
    else if secret != refreshSecret then ⟨false, some .signatureInvalid⟩
    else match cs.exp with
      | some e => if e < now then ⟨false, some .expired⟩ else ⟨true, none⟩
      | none => ⟨true, none⟩

/-- `jwt.NewPairTokens(user)` (`internal/lib/jwt`): mints the access token
with claims `{uuid, username, email, exp = now + accessDuration}` signed
HS256 under `accessSecret`, and the refresh token with claims
`{exp = now + refreshDuration}` signed HS256 under `refreshSecret`.
The `uuid` claim carries the JSON marshalling of `user.UUID`, i.e. its
canonical string. The Go code reads `time.Now()` once per token;
both reads are collapsed into the single parameter `now`. -/
def NewPairTokens (user : NormalizedUser) (now : Int) : Token × Token :=
  ( .signed ⟨some (.str user.uuid.repr), some (.str user.username),
             some (.str user.email), some (now + accessDuration)⟩
      .hs256 accessSecret,
    .signed ⟨none, none, none, some (now + refreshDuration)⟩
      .hs256 refreshSecret )

/-- Error kinds of `extractUserFromClaims`: the four distinct `errors.New`
messages in `internal/lib/jwt`. -/
inductive ExtractErr where
  | missingUuid
  | uuidParseFailed
  | missingUsername
  | missingEmail
deriving DecidableEq, Repr

/-- `extractUserFromClaims(claims)` (`internal/lib/jwt`): requires a string
`uuid` claim that `uuid.Parse` accepts, plus string `username` and `email`
claims. -/
def extractUserFromClaims (claims : MapClaims) : Except ExtractErr NormalizedUser :=
  match claims.uuid with
  | some (.str uuidStr) =>
    match uuidParse uuidStr with
    | some userUUID =>
      match claims.username with
      | some (.str username) =>
        match claims.email with
        | some (.str email) => .ok ⟨userUUID, username, email⟩
        | _ => .error .missingEmail
      | _ => .error .missingUsername
    | none => .error .uuidParseFailed
  | _ => .error .missingUuid

/-- The error values a verification call can return: the package-level
`jwt.ErrUserUnauthorized`, a raw error surfaced from `jwt.Parse`, or a raw
error surfaced from `extractUserFromClaims`. -/
inductive VerifyErr where
  | userUnauthorized
  | jwt (e : JwtError)
  | claims (e : ExtractErr)
deriving DecidableEq, Repr

/-- The quadruple `(newAccessToken, newRefreshToken, user, err)` returned by
`VerifyAccessToken` / `VerifyRefreshToken`; `none` in the token components
models the empty string `""`, and `none` in `user` models a nil pointer. -/
structure VerifyReply where
  newAccess : Option Token
  newRefresh : Option Token
  user : Option NormalizedUser
  err : Option VerifyErr
deriving DecidableEq, Repr

/-- `jwt.VerifyRefreshToken(user, refreshToken)` (`internal/lib/jwt`): parse
the refresh token against the refresh secret; a parse error is returned as
is; an invalid-but-errorless token would map to `ErrUserUnauthorized`
(unreachable in golang-jwt v5, where `Valid` holds exactly when no error was
returned); otherwise a brand-new pair is minted for `user`. -/
def VerifyRefreshToken (user : NormalizedUser) (refreshToken : Token) (now : Int) :
    VerifyReply :=
  let r := parseRefreshToken refreshToken now
  match r.err with
  | some e => ⟨none, none, none, some (.jwt e)⟩
  | none =>
    if !r.valid then ⟨none, none, none, some .userUnauthorized⟩
    else
      let p := NewPairTokens user now
      ⟨some p.1, some p.2, some user, none⟩

/-- `jwt.VerifyAccessToken(accessToken, refreshToken)` (`internal/lib/jwt`):
parse-and-verify the access token; if it verifies, the identity is extracted
from its claims and returned with no new tokens (an extraction failure is
returned as is); if it does not verify, the identity is recovered from the
unverified claims — failing that, `ErrUserUnauthorized` — and the refresh
path decides. -/
def VerifyAccessToken (accessToken refreshToken : Token) (now : Int) : VerifyReply :=
  let p := parseAccessToken accessToken now
  if p.err.isSome || !p.valid then
    match extractUserFromClaims p.claims with
    | .error _ => ⟨none, none, none, some .userUnauthorized⟩
    | .ok user => VerifyRefreshToken user refreshToken now
  else
    match extractUserFromClaims p.claims with
    | .error e => ⟨none, none, none, some (.claims e)⟩
    | .ok user => ⟨none, none, some user, none⟩

/-! ## Password hashing (bcrypt model) -/

/-- Model of a bcrypt hash. `golang.org/x/crypto/bcrypt` draws a fresh
random salt per `GenerateFromPassword` call; the model carries the salt
explicitly (non-determinism becomes an explicit parameter) together with
the hashed password, so that `CompareHashAndPassword` succeeds exactly on
the password the hash was generated from — the contract the auth service
relies on. Stored hashes are never read back as plaintext by any code under
verification, so this representation is observationally faithful. -/
structure BHash where
  pw : String
  salt : Nat
deriving DecidableEq, Repr

/-- `bcrypt.GenerateFromPassword(password, bcrypt.DefaultCost)` with the
per-call random salt made explicit. -/
def bcryptGenerate (password : String) (salt : Nat) : BHash := ⟨password, salt⟩

/-- `bcrypt.CompareHashAndPassword(hash, password) == nil`. -/
def bcryptCompare (hash : BHash) (password : String) : Bool := hash.pw == password

/-! ## Persisted state and storage providers -/

/-- Association-list lookup keyed by email (the `users` table of the
user-service, `WHERE email = $1`). -/
def lookupUser : List (String × NormalizedUser) → String → Option NormalizedUser
  | [], _ => none
  | (k, v) :: rest, email => if k = email then some v else lookupUser rest email

/-- Association-list lookup keyed by user id (the `credentials` table of the
auth-service, `WHERE user_id = $1`). -/
def lookupCred : List (UUID × BHash) → UUID → Option BHash
  | [], _ => none
  | (k, v) :: rest, uid => if k = uid then some v else lookupCred rest uid

/-- `UPDATE credentials SET password_hash = $1 WHERE user_id = $2`: replace
the hash of every row whose key matches. -/
def setCredList : List (UUID × BHash) → UUID → BHash → List (UUID × BHash)
  | [], _, _ => []
  | (k, v) :: rest, uid, h =>
    if k = uid then (k, h) :: setCredList rest uid h
    else (k, v) :: setCredList rest uid h

/-- The persisted state the auth flows touch: the user-service `users` rows
(email-keyed identities) and the auth-service `credentials` rows
(user-id-keyed password hashes). -/
structure Store where
  users : List (String × NormalizedUser)
  creds : List (UUID × BHash)
deriving DecidableEq, Repr

def Store.getUserByEmail (st : Store) (email : String) : Option NormalizedUser :=
  lookupUser st.users email

def Store.getCred (st : Store) (uid : UUID) : Option BHash :=
  lookupCred st.creds uid

def Store.setCred (st : Store) (uid : UUID) (h : BHash) : Store :=
  { st with creds := setCredList st.creds uid h }

/-- Error values crossing the storage boundary, as the auth service
distinguishes them with `errors.Is`: the sentinel values of the `provider`
package (`ErrUserNotFound`, `ErrUserExists`) and raw, untranslated driver
errors (`pgx` scan-no-rows and unique-constraint violations), which match
neither sentinel. -/
inductive StorageErr where
  | userNotFound
  | userExists
  | noRows
  | uniqueViolation
deriving DecidableEq, Repr

/-- The identity provider behind `UserProvider.GetUser`: the user-service
storage `GetUserByEmail` (`user.go`) translates `pgx.ErrNoRows` to
`storage.ErrUserNotFound`, and `UserDataService.GetUserByEmail` forwards it
wrapped, preserving `errors.Is` matching. -/
def providerGetUser (st : Store) (email : String) : Except StorageErr NormalizedUser :=
  match st.getUserByEmail email with
  | some u => .ok u
  | none => .error .userNotFound

/-- Modelled from the spec: the auth-service binary wiring its
`UserProvider.CreateUser` to the user-service, and the user-service `users`
schema, are not under `src/`; per §3 an Identity is unique per email and
created once, so inserting a duplicate email fails. The failure shape
follows the code that is present: the user-service storage `CreateUser`
(`user.go`) performs a bare `INSERT INTO users` and returns the raw,
untranslated driver error on a constraint violation, and
`UserDataService.CreateUser` forwards it wrapped without `errors.Is`
translation. The fresh identity's username and id
(`gofakeit.Username()`, `uuid.New()` in `UserDataService.CreateUser`)
are explicit parameters. -/
def providerCreateUser (st : Store) (email username : String) (uid : UUID) :
    Except StorageErr (NormalizedUser × Store) :=
  match st.getUserByEmail email with
  | some _ => .error .uniqueViolation
  | none =>
    let u : NormalizedUser := ⟨uid, username, email⟩
    .ok (u, { st with users := (email, u) :: st.users })

/-- `Storage.Login` / `Storage.Password` (`credential.go`): `SELECT
password_hash FROM credentials WHERE user_id = $1`; a missing row makes
`row.Scan` fail and the raw error is returned — `credential.go` performs no
`pgx.ErrNoRows` translation, so the result never matches
`storage.ErrUserNotFound`. -/
def providerPassword (st : Store) (uid : UUID) : Except StorageErr BHash :=
  match st.getCred uid with
  | some h => .ok h
  | none => .error .noRows

/-- `Storage.Register` (`credential.go`): `INSERT INTO credentials`; a
duplicate `user_id` violates the key constraint and the raw driver error is
returned — `credential.go` performs no translation, so the result never
matches `storage.ErrUserExists`. -/
def providerRegisterCred (st : Store) (uid : UUID) (h : BHash) :
    Except StorageErr Store :=
  match st.getCred uid with
  | some _ => .error .uniqueViolation
  | none => .ok { st with creds := (uid, h) :: st.creds }

/-- `Storage.ChangePassword` (`credential.go`): `UPDATE credentials SET
password_hash = $1 WHERE user_id = $2 RETURNING user_id`; with no matching
row, `row.Scan` fails and the raw error is returned untranslated. -/
def providerChangePassword (st : Store) (uid : UUID) (h : BHash) :
    Except StorageErr Store :=
  match st.getCred uid with
  | some _ => .ok (st.setCred uid h)
  | none => .error .noRows

/-! ## The auth service (`internal/services/auth`) -/

/-- The error values of `services/auth`: its package-level sentinels, plus
raw storage errors it forwards unchanged. -/
inductive AuthError where
  | invalidCredentials
  | failedToGetUser
  | userExists
  | userNotFound
  | storage (e : StorageErr)
deriving DecidableEq, Repr

/-- `models.LoginUser`. -/
structure LoginUser where
  email : String
  password : String
deriving DecidableEq, Repr

/-- `models.RegisterUser`. -/
structure RegisterUser where
  email : String
  password : String
deriving DecidableEq, Repr

/-- `models.NewPassword`. -/
structure NewPassword where
  email : String
  previousPassword : String
  newPassword : String
deriving DecidableEq, Repr

/-- `models.ResetPassword`. -/
structure ResetPassword where
  email : String
deriving DecidableEq, Repr

/-- `AuthService.Login`: look the identity up by email (`ErrUserNotFound`
maps to `ErrInvalidCredentials`), fetch its hash (`errors.Is` against
`ErrUserNotFound` again, unreachable with `credential.go`'s untranslated
errors), compare with bcrypt (mismatch maps to `ErrInvalidCredentials`),
then mint a fresh pair. Login performs no write. -/
def Login (st : Store) (loginUser : LoginUser) (now : Int) :
    Except AuthError (NormalizedUser × Token × Token) :=
  match providerGetUser st loginUser.email with
  | .error e =>
    if e = .userNotFound then .error .invalidCredentials else .error (.storage e)
  | .ok user =>
    match providerPassword st user.uuid with
    | .error e =>
      if e = .userNotFound then .error .invalidCredentials else .error (.storage e)
    | .ok passHash =>
      if !bcryptCompare passHash loginUser.password then .error .invalidCredentials
      else
        let p := NewPairTokens user now
        .ok (user, p.1, p.2)

/-- `AuthService.RegisterNewUser`: create the identity (any failure maps to
`ErrFailedToGetUser`), hash the password, create the credential
(`errors.Is` against `storage.ErrUserExists` maps to `ErrUserExists`, any
other error is forwarded), then mint a fresh pair. Returns the result
together with the persisted state after the call; a credential-store
failure leaves the identity row already committed by the user-service. -/
def RegisterNewUser (st : Store) (registerUser : RegisterUser) (uid : UUID)
    (username : String) (salt : Nat) (now : Int) :
    Except AuthError (NormalizedUser × Token × Token) × Store :=
  match providerCreateUser st registerUser.email username uid with
  | .error _ => (.error .failedToGetUser, st)
  | .ok (user, st1) =>
    let passHash := bcryptGenerate registerUser.password salt
    match providerRegisterCred st1 user.uuid passHash with
    | .error e =>
      if e = .userExists then (.error .userExists, st1)
      else (.error (.storage e), st1)
    | .ok st2 =>
      let p := NewPairTokens user now
      (.ok (user, p.1, p.2), st2)

/-- `AuthService.ChangePassword`: look the identity up (`ErrUserNotFound`
maps to `ErrUserNotFound`), fetch the old hash (errors forwarded raw),
verify the old password (mismatch maps to `ErrInvalidCredentials`, before
anything is written), hash the new password and replace the stored hash
(`errors.Is` against `storage.ErrUserExists`, else forwarded raw). -/
def ChangePassword (st : Store) (newPassword : NewPassword) (salt : Nat) :
    Except AuthError Unit × Store :=
  match providerGetUser st newPassword.email with
  | .error e =>
    (if e = .userNotFound then .error .userNotFound else .error (.storage e), st)
  | .ok user =>
    match providerPassword st user.uuid with
    | .error e => (.error (.storage e), st)
    | .ok oldPasswordHash =>
      if !bcryptCompare oldPasswordHash newPassword.previousPassword then
        (.error .invalidCredentials, st)
      else
        let passHash := bcryptGenerate newPassword.newPassword salt
        match providerChangePassword st user.uuid passHash with
        | .error e =>
          (if e = .userExists then .error .userExists else .error (.storage e), st)
        | .ok st1 => (.ok (), st1)

/-! ## Reset flow and the gofakeit password model -/

def lowerChars : List Char := "abcdefghijklmnopqrstuvwxyz".toList
def upperChars : List Char := "ABCDEFGHIJKLMNOPQRSTUVWXYZ".toList
def digitChars : List Char := "0123456789".toList
def specialChars : List Char := "!@#$%&?-_".toList

/-- The pool of characters the enabled classes contribute. -/
def passwordPool (lower upper numeric special space : Bool) : List Char :=
  (if lower then lowerChars else []) ++ (if upper then upperChars else []) ++
  (if numeric then digitChars else []) ++ (if special then specialChars else []) ++
  (if space then [' '] else [])

/-- Draw `n` characters from `pool`, driving the choice from `seed`. -/
def pickChars (pool : List Char) : Nat → Nat → List Char
  | _, 0 => []
  | seed, n + 1 =>
    pool.getD (seed % pool.length) 'x' :: pickChars pool (seed / pool.length + 1) n

/-- Model of `gofakeit.Password(lower, upper, numeric, special, space, num)`
(v6): a pseudorandom string of exactly `num` characters drawn from the
enabled character classes; the PRNG state is the explicit `seed`. -/
def gofakeitPassword (lower upper numeric special space : Bool)
    (num seed : Nat) : String :=
  String.mk (pickChars (passwordPool lower upper numeric special space) seed num)

/-- An invocation of an external collaborator during the reset flow: a
credential-store write, or the spec §6 notification channel delivering the
generated secret. The notification collaborator exists only in the spec's
vocabulary; the Go code contains no such call. -/
inductive Effect where
  | credWrite (uid : UUID) (h : BHash)
  | notify (email secret : String)
deriving DecidableEq, Repr

def Effect.isNotify : Effect → Bool
  | notify _ _ => true
  | _ => false

/-- `AuthService.ResetPassword`: look the identity up (`ErrUserNotFound`
maps to `ErrUserNotFound`), generate
`gofakeit.Password(true, true, true, true, false, 14)`, hash it and replace
the stored hash through `auth.ChangePassword`. Besides the result and the
persisted state, the model returns the trace of collaborator invocations the
call performs. -/
def ResetPasswordSvc (st : Store) (resetPassword : ResetPassword)
    (seed salt : Nat) : Except AuthError Unit × Store × List Effect :=
  match providerGetUser st resetPassword.email with
  | .error e =>
    (if e = .userNotFound then .error .userNotFound else .error (.storage e), st, [])
  | .ok user =>
    let key := gofakeitPassword true true true true false 14 seed
    let passHash := bcryptGenerate key salt
    match providerChangePassword st user.uuid passHash with
    | .error e =>
      (if e = .userExists then .error .userExists else .error (.storage e),
       st, [.credWrite user.uuid passHash])
    | .ok st1 => (.ok (), st1, [.credWrite user.uuid passHash])

/-! ## State-passing view of token verification -/

/-- Token verification threaded through the persisted state: the Go
`VerifyAccessToken` lives in package `jwt`, which imports no storage
provider and receives no handle to one, so the state passes through
untouched and the reply is computed from the tokens and the clock alone. -/
def VerifyAccessTokenST (st : Store) (accessToken refreshToken : Token)
    (now : Int) : VerifyReply × Store :=
  (VerifyAccessToken accessToken refreshToken now, st)

/-! ## Concrete fixtures used by witnesses and counterexamples -/

def uuid0 : UUID := ⟨"00000000-0000-0000-0000-000000000000"⟩

def user0 : NormalizedUser := ⟨uuid0, "alice", "a@x.com"⟩

/-- A pair freshly issued for `user0` at time 0. -/
def accessTok0 : Token := (NewPairTokens user0 0).1

def refreshTok0 : Token := (NewPairTokens user0 0).2

/-- A well-formed access token for `user0` whose expiry is in the past. -/
def expiredAccessTok : Token :=
  .signed ⟨some (.str uuid0.repr), some (.str "alice"), some (.str "a@x.com"),
           some (-100)⟩ .hs256 accessSecret

def hash0 : BHash := bcryptGenerate "password1" 1

/-- A store holding the identity `user0` and its credential. -/
def st0 : Store := ⟨[("a@x.com", user0)], [(uuid0, hash0)]⟩

def uuidA : UUID := ⟨"11111111-1111-1111-1111-111111111111"⟩

def uuidB : UUID := ⟨"22222222-2222-2222-2222-222222222222"⟩

def regReq : RegisterUser := ⟨"a@x.com", "password1"⟩

/-- The persisted state after a first successful registration of
`a@x.com` against an empty store. -/
def stAfterFirst : Store := (RegisterNewUser ⟨[], []⟩ regReq uuidA "alice" 1 0).2

/-! ## Helper lemmas -/

/-- golang-jwt v5 sets `Valid` exactly when parsing returned no error
(access path). -/
theorem access_valid_iff (t : Token) (now : Int) :
    (parseAccessToken t now).valid = (parseAccessToken t now).err.isNone := by
  cases t with
  | malformed raw => rfl
  | signed cs m secret =>
    cases hex : cs.exp <;>
      simp only [parseAccessToken, hex] <;> split_ifs <;> rfl

theorem access_err_none_valid (t : Token) (now : Int)
    (h : (parseAccessToken t now).err = none) :
    (parseAccessToken t now).valid = true := by
  rw [access_valid_iff, h]
  rfl

/-- golang-jwt v5 sets `Valid` exactly when parsing returned no error
(refresh path). -/
theorem refresh_valid_iff (t : Token) (now : Int) :
    (parseRefreshToken t now).valid = (parseRefreshToken t now).err.isNone := by
  cases t with
  | malformed raw => rfl
  | signed cs m secret =>
    cases hex : cs.exp <;>
      simp only [parseRefreshToken, hex] <;> split_ifs <;> rfl

theorem refresh_err_none_valid (t : Token) (now : Int)
    (h : (parseRefreshToken t now).err = none) :
    (parseRefreshToken t now).valid = true := by
  rw [refresh_valid_iff, h]
  rfl

/-- A freshly minted access token parses and verifies at its minting time. -/
theorem mint_access_parses (u : NormalizedUser) (now : Int) :
    (parseAccessToken (NewPairTokens u now).1 now).err = none := by
  simp [NewPairTokens, parseAccessToken, accessDuration]

/-- A replaced credential row is what subsequent reads observe. -/
theorem lookupCred_setCredList (l : List (UUID × BHash)) (uid : UUID)
    (h newHash : BHash) (hl : lookupCred l uid = some h) :
    lookupCred (setCredList l uid newHash) uid = some newHash := by
  induction l with
  | nil => simp [lookupCred] at hl
  | cons p rest ih =>
    obtain ⟨k, v⟩ := p
    by_cases hk : k = uid
    · subst hk
      simp [lookupCred, setCredList]
    · simp [lookupCred, setCredList, hk] at hl ⊢
      exact ih hl

theorem pickChars_length (pool : List Char) (seed n : Nat) :
    (pickChars pool seed n).length = n := by
  induction n generalizing seed with
  | zero => simp [pickChars]
  | succ k ih => simp [pickChars, ih]

/-- The generated reset secret has exactly the requested length. -/
theorem gofakeitPassword_length (l u d s sp : Bool) (num seed : Nat) :
    (gofakeitPassword l u d s sp num seed).length = num := by
  simp [gofakeitPassword, String.length, pickChars_length]

/-! ## Claim theorems -/

/-- Claim C3: for every access token that parses with a valid signature and
unexpired `exp` against the access secret, `VerifyAccessToken` returns the
identity carried in that token's own claims, returns no new token pair, and
performs no mutation of persisted state — whatever the refresh token is. -/
theorem valid_access_token_returns_own_identity
    (st : Store) (a r : Token) (now : Int) (u : NormalizedUser)
    (hok : (parseAccessToken a now).err = none)
    (hu : extractUserFromClaims (parseAccessToken a now).claims = .ok u) :
    VerifyAccessTokenST st a r now = (⟨none, none, some u, none⟩, st) := by
  have hv := access_err_none_valid a now hok
  unfold VerifyAccessTokenST VerifyAccessToken
  simp [hok, hv, hu]

/-- Witness for C3: a pair freshly issued for `user0` verifies to `user0`
with no new tokens and an untouched store. -/
theorem valid_access_token_returns_own_identity_witness :
    VerifyAccessTokenST st0 accessTok0 refreshTok0 0 =
      (⟨none, none, some user0, none⟩, st0) :=
  valid_access_token_returns_own_identity st0 accessTok0 refreshTok0 0 user0
    (by decide) (by decide)

/-- Claim C10: when the access token is invalid and its claims do not yield
a complete identity, `VerifyAccessToken` returns `ErrUserUnauthorized`
without minting tokens, for every refresh token whatsoever. -/
theorem unrecoverable_claims_reject_regardless_of_refresh
    (a r : Token) (now : Int) (e : ExtractErr)
    (ha : (parseAccessToken a now).err.isSome = true)
    (he : extractUserFromClaims (parseAccessToken a now).claims = .error e) :
    VerifyAccessToken a r now = ⟨none, none, none, some .userUnauthorized⟩ := by
  unfold VerifyAccessToken
  simp [ha, he]

/-- Witness for C10: a malformed access token is rejected with
`ErrUserUnauthorized` even when paired with a perfectly valid refresh
token. -/
theorem unrecoverable_claims_reject_regardless_of_refresh_witness :
    VerifyAccessToken (.malformed "not-a-jwt") refreshTok0 0 =
      ⟨none, none, none, some .userUnauthorized⟩ :=
  unrecoverable_claims_reject_regardless_of_refresh (.malformed "not-a-jwt")
    refreshTok0 0 .missingUuid (by decide) (by decide)

/-- Counterexample to claim C1 as stated: an access token that fails
parsing outright carries no recoverable claims, so even with a valid
refresh token `VerifyAccessToken` returns `ErrUserUnauthorized` and mints
nothing, instead of rotating the pair. -/
theorem rotation_claim_counterexample :
    (parseRefreshToken refreshTok0 0).err = none ∧
    (parseAccessToken (Token.malformed "not-a-jwt") 0).err.isSome = true ∧
    VerifyAccessToken (Token.malformed "not-a-jwt") refreshTok0 0 =
      ⟨none, none, none, some .userUnauthorized⟩ := by
  decide

/-- Claim C1 (amended): for every access token that fails verification but
whose decoded claims still yield a complete identity, and every refresh
token valid against the refresh secret, `VerifyAccessToken` mints an
entirely new pair via `NewPairTokens` for that identity and returns it with
`Authenticated(identity)`; the new pair differs from the presented pair. -/
theorem rotation_on_valid_refresh
    (a r : Token) (now : Int) (u : NormalizedUser)
    (ha : (parseAccessToken a now).err.isSome = true)
    (hu : extractUserFromClaims (parseAccessToken a now).claims = .ok u)
    (hr : (parseRefreshToken r now).err = none) :
    VerifyAccessToken a r now =
      ⟨some (NewPairTokens u now).1, some (NewPairTokens u now).2, some u, none⟩ ∧
    ((NewPairTokens u now).1, (NewPairTokens u now).2) ≠ (a, r) := by
  have hv := refresh_err_none_valid r now hr
  constructor
  · unfold VerifyAccessToken VerifyRefreshToken
    simp [ha, hu, hr, hv]
  · intro hpair
    have h1 : (NewPairTokens u now).1 = a := by
      simpa using congrArg Prod.fst hpair
    have hmint := mint_access_parses u now
    rw [h1] at hmint
    rw [hmint] at ha
    simp at ha

/-- Witness for C1 (amended): an expired-but-decodable access token for
`user0` plus a valid refresh token rotates into the pair freshly minted for
`user0`. -/
theorem rotation_on_valid_refresh_witness :
    VerifyAccessToken expiredAccessTok refreshTok0 0 =
      ⟨some (NewPairTokens user0 0).1, some (NewPairTokens user0 0).2,
       some user0, none⟩ ∧
    ((NewPairTokens user0 0).1, (NewPairTokens user0 0).2) ≠
      (expiredAccessTok, refreshTok0) :=
  rotation_on_valid_refresh expiredAccessTok refreshTok0 0 user0
    (by decide) (by decide) (by decide)

/-- Counterexample to claim C2 as stated: with an expired (decodable)
access token and a corrupted refresh token, verification returns the raw
parse error from `jwt.Parse` — not the dedicated unauthorized error — which
the HTTP boundary then treats as an internal error. -/
theorem rejected_claim_counterexample :
    (parseAccessToken expiredAccessTok 0).err.isSome = true ∧
    (parseRefreshToken (Token.malformed "zzz") 0).err.isSome = true ∧
    VerifyAccessToken expiredAccessTok (Token.malformed "zzz") 0 =
      ⟨none, none, none, some (.jwt .malformed)⟩ ∧
    VerifyErr.jwt .malformed ≠ VerifyErr.userUnauthorized := by
  decide

/-- Claim C2 (amended): for every input pair whose access token is invalid
and whose refresh token is also invalid or expired, verification resolves
to an error result disclosing no identity and minting no tokens; the error
is the dedicated unauthorized error when the access claims yield no
identity, and otherwise the raw parse/validation error of the refresh
token. -/
theorem rejected_returns_error_without_identity
    (a r : Token) (now : Int)
    (ha : (parseAccessToken a now).err.isSome = true)
    (hr : (parseRefreshToken r now).err.isSome = true) :
    ∃ e, VerifyAccessToken a r now = ⟨none, none, none, some e⟩ ∧
      (e = .userUnauthorized ∨
       ∃ je, (parseRefreshToken r now).err = some je ∧ e = .jwt je) := by
  unfold VerifyAccessToken
  cases hx : extractUserFromClaims (parseAccessToken a now).claims with
  | error e =>
    exact ⟨.userUnauthorized, by simp [ha, hx], Or.inl rfl⟩
  | ok u =>
    cases hje : (parseRefreshToken r now).err with
    | none => rw [hje] at hr; simp at hr
    | some je =>
      refine ⟨.jwt je, ?_, Or.inr ⟨je, by simp [hje], rfl⟩⟩
      unfold VerifyRefreshToken
      simp [ha, hx, hje]

/-- Witness for C2 (amended): concrete rejected pair. -/
theorem rejected_returns_error_without_identity_witness :
    ∃ e, VerifyAccessToken expiredAccessTok (Token.malformed "zzz") 0 =
        ⟨none, none, none, some e⟩ ∧
      (e = .userUnauthorized ∨
       ∃ je, (parseRefreshToken (Token.malformed "zzz") 0).err = some je ∧
         e = .jwt je) :=
  rejected_returns_error_without_identity expiredAccessTok (.malformed "zzz") 0
    (by decide) (by decide)

/-- Claim C4: for every identity, `NewPairTokens` produces an access token
whose claims are exactly the identity's id, username and email plus
`exp = now + 15` minutes, and a refresh token whose claims are exactly
`exp = now + 30` days, both HMAC-SHA-256 signed, the refresh token under a
different secret than the access token. -/
theorem pair_construction (u : NormalizedUser) (now : Int) :
    NewPairTokens u now =
      (.signed ⟨some (.str u.uuid.repr), some (.str u.username),
                some (.str u.email), some (now + accessDuration)⟩
          .hs256 accessSecret,
       .signed ⟨none, none, none, some (now + refreshDuration)⟩
          .hs256 refreshSecret) ∧
    accessDuration = 15 * 60 ∧
    refreshDuration = 30 * 24 * 60 * 60 ∧
    accessSecret ≠ refreshSecret :=
  ⟨rfl, rfl, by decide, by decide⟩

/-- Claim C5: `Login` answers with the same `ErrInvalidCredentials` both
when no identity exists for the email and when the identity exists but the
password fails bcrypt verification against the stored hash. -/
theorem login_uniform_invalid_credentials
    (st : Store) (lu : LoginUser) (now : Int) (u : NormalizedUser) (bh : BHash) :
    (st.getUserByEmail lu.email = none →
      Login st lu now = .error .invalidCredentials) ∧
    (st.getUserByEmail lu.email = some u →
      st.getCred u.uuid = some bh →
      bcryptCompare bh lu.password = false →
      Login st lu now = .error .invalidCredentials) := by
  constructor
  · intro h
    unfold Login providerGetUser
    simp [h]
  · intro h1 h2 h3
    unfold Login providerGetUser providerPassword Store.getCred at *
    simp [h1, h2, h3]

/-- Witness for C5: unknown email and wrong password produce the identical
error kind on a concrete store. -/
theorem login_uniform_invalid_credentials_witness :
    Login st0 ⟨"nouser@x.com", "anything"⟩ 0 = .error .invalidCredentials ∧
    Login st0 ⟨"a@x.com", "wrongpw"⟩ 0 = .error .invalidCredentials :=
  ⟨(login_uniform_invalid_credentials st0 ⟨"nouser@x.com", "anything"⟩ 0
      user0 hash0).1 (by decide),
   (login_uniform_invalid_credentials st0 ⟨"a@x.com", "wrongpw"⟩ 0
      user0 hash0).2 (by decide) (by decide) (by decide)⟩

/-- Claim C6: when the supplied old password does not verify against the
stored hash, `ChangePassword` returns `ErrInvalidCredentials` and the
persisted state — in particular the stored hash — is exactly what it was
before the call. -/
theorem change_password_no_write_on_mismatch
    (st : Store) (np : NewPassword) (salt : Nat) (u : NormalizedUser)
    (oldHash : BHash)
    (h1 : st.getUserByEmail np.email = some u)
    (h2 : st.getCred u.uuid = some oldHash)
    (h3 : bcryptCompare oldHash np.previousPassword = false) :
    ChangePassword st np salt = (.error .invalidCredentials, st) := by
  unfold ChangePassword providerGetUser providerPassword
  simp [h1, h2, h3]

/-- Witness for C6: a wrong old password on a concrete store leaves the
store untouched. -/
theorem change_password_no_write_on_mismatch_witness :
    ChangePassword st0 ⟨"a@x.com", "wrongpw", "newpass1"⟩ 9 =
      (.error .invalidCredentials, st0) :=
  change_password_no_write_on_mismatch st0 ⟨"a@x.com", "wrongpw", "newpass1"⟩ 9
    user0 hash0 (by decide) (by decide) (by decide)

/-- Counterexample to claim C7 as stated: a successful reset on an existing
identity invokes exactly one collaborator — the credential-store write —
and no notification collaborator ever receives the generated secret, which
is thereby discarded. -/
theorem reset_password_no_notification_counterexample :
    (ResetPasswordSvc st0 ⟨"a@x.com"⟩ 5 7).1 = .ok () ∧
    (ResetPasswordSvc st0 ⟨"a@x.com"⟩ 5 7).2.2 =
      [Effect.credWrite user0.uuid
        (bcryptGenerate (gofakeitPassword true true true true false 14 5) 7)] ∧
    Effect.isNotify (Effect.credWrite user0.uuid
      (bcryptGenerate (gofakeitPassword true true true true false 14 5) 7))
      = false := by
  decide

/-- Claim C7 (amended): on an existing identity with a stored credential,
`ResetPassword` generates a random 14-character secret with the
upper/lower/digit/symbol classes enabled, hashes it and stores the hash for
that identity — but no notification collaborator is invoked; the generated
secret is discarded. -/
theorem reset_password_stores_hash_without_notification
    (st : Store) (rp : ResetPassword) (seed salt : Nat)
    (u : NormalizedUser) (oldHash : BHash)
    (h1 : st.getUserByEmail rp.email = some u)
    (h2 : st.getCred u.uuid = some oldHash) :
    (ResetPasswordSvc st rp seed salt).1 = .ok () ∧
    (ResetPasswordSvc st rp seed salt).2.1.getCred u.uuid =
      some (bcryptGenerate
        (gofakeitPassword true true true true false 14 seed) salt) ∧
    (gofakeitPassword true true true true false 14 seed).length = 14 ∧
    ((ResetPasswordSvc st rp seed salt).2.2.any Effect.isNotify) = false := by
  have hred : ResetPasswordSvc st rp seed salt =
      (.ok (),
       st.setCred u.uuid (bcryptGenerate
         (gofakeitPassword true true true true false 14 seed) salt),
       [.credWrite u.uuid (bcryptGenerate
         (gofakeitPassword true true true true false 14 seed) salt)]) := by
    unfold ResetPasswordSvc providerGetUser providerChangePassword
    simp [h1, h2]
  rw [hred]
  refine ⟨rfl, ?_, gofakeitPassword_length true true true true false 14 seed, rfl⟩
  show Store.getCred _ _ = _
  unfold Store.getCred Store.setCred at *
  exact lookupCred_setCredList st.creds u.uuid oldHash _ h2

/-- Witness for C7 (amended): concrete reset on `st0`. -/
theorem reset_password_stores_hash_without_notification_witness :
    (ResetPasswordSvc st0 ⟨"a@x.com"⟩ 3 4).1 = .ok () ∧
    (ResetPasswordSvc st0 ⟨"a@x.com"⟩ 3 4).2.1.getCred user0.uuid =
      some (bcryptGenerate (gofakeitPassword true true true true false 14 3) 4) ∧
    (gofakeitPassword true true true true false 14 3).length = 14 ∧
    ((ResetPasswordSvc st0 ⟨"a@x.com"⟩ 3 4).2.2.any Effect.isNotify) = false :=
  reset_password_stores_hash_without_notification st0 ⟨"a@x.com"⟩ 3 4 user0 hash0
    (by decide) (by decide)

/-- Claim C8 (code bug): registering `a@x.com` a second time does leave the
first identity and credential unchanged, but the returned error is
`ErrFailedToGetUser`, not `ErrUserExists`: the identity provider rejects
the duplicate before `RegisterNewUser`'s dead `storage.ErrUserExists`
translation branch can ever apply, and `credential.go` never produces that
sentinel either. -/
theorem duplicate_register_returns_wrong_error :
    (RegisterNewUser ⟨[], []⟩ regReq uuidA "alice" 1 0).1 =
      .ok (⟨uuidA, "alice", "a@x.com"⟩,
        (NewPairTokens ⟨uuidA, "alice", "a@x.com"⟩ 0).1,
        (NewPairTokens ⟨uuidA, "alice", "a@x.com"⟩ 0).2) ∧
    (RegisterNewUser stAfterFirst regReq uuidB "bob" 2 5).1 =
      .error .failedToGetUser ∧
    AuthError.failedToGetUser ≠ AuthError.userExists ∧
    (RegisterNewUser stAfterFirst regReq uuidB "bob" 2 5).2 = stAfterFirst := by
  decide

/-- Claim C9: token verification is a pure function of the presented
tokens and the clock: the persisted state passes through every verification
call unchanged, and the reply does not depend on that state. -/
theorem verify_token_pure (st st' : Store) (a r : Token) (now : Int) :
    (VerifyAccessTokenST st a r now).2 = st ∧
    (VerifyAccessTokenST st a r now).1 = (VerifyAccessTokenST st' a r now).1 ∧
    (VerifyAccessTokenST st a r now).1 = VerifyAccessToken a r now :=
  ⟨rfl, rfl, rfl⟩

end CChat
